import Mathlib

/-!
Shallow embedding of the Phone CRM front-end (src/src/App.jsx).

The component is a single React function component.  We embed it as a pure
state machine: the React state variables become fields of `AppState`, the
browser `localStorage` becomes `Storage`, and every network call / alert /
confirm / reload the code performs becomes an `Effect` value emitted by the
handler.  Each async handler of the source is split at its `await` points
into a synchronous start function and resolve/reject continuations, exactly
following the source control flow.
-/

/-- One inventory row (the fields App.jsx reads and writes on an item).
All editable values flow through `e.target.value`, i.e. strings. -/
structure Item where
  id : Nat
  fio : String
  sana : String
  model : String
  imei : String
  gb : String
  purchase_price : String
  sold_date : String
  sale_price : String
deriving DecidableEq, Repr

/-- The stats object rendered in the summary cards (GET /stats response). -/
structure Stats where
  total_rows_count : Int
  total_items_count : Int
  total_inventory_value : Int
  total_purchase_sold : Int
  total_sales : Int
  total_profit : Int
deriving DecidableEq, Repr

/-- Alert messages shown by the component, as tags (the source shows fixed
localized strings; their exact wording is irrelevant to the claims). -/
inductive AlertKind where
  | invalidCount
  | genericError
deriving DecidableEq, Repr

/-- Side effects the component performs: the axios requests of App.jsx plus
window-level alert/confirm/reload. -/
inductive Effect where
  | getItems (tab : String) (limit offset : Nat) (searchText : String)
  | getStats (tab : String)
  | postItem (tab : String)
  | putItem (id : Nat) (field : String) (value : String)
  | deleteReq (id : Nat)
  | postReturn (id : Nat)
  | alert (kind : AlertKind)
  | confirmBig (count : Int)
  | reload
deriving DecidableEq, Repr

/-- Is the effect a list fetch (GET /items)? -/
def isItemsFetch : Effect → Bool
  | Effect.getItems _ _ _ _ => true
  | _ => false

/-- Is the effect a stats fetch (GET /stats)? -/
def isStatsFetch : Effect → Bool
  | Effect.getStats _ => true
  | _ => false

/-- The persistent browser storage keys App.jsx uses:
localStorage "token" and "isLoggedIn". -/
structure Storage where
  token : Option String
  isLoggedIn : Option String
deriving DecidableEq, Repr

/-- The axios error object as seen by the response interceptor: whether
`error.response` exists and, when it does, its HTTP status. -/
structure ErrorInfo where
  hasResponse : Bool
  status : Nat
deriving DecidableEq, Repr

/-- The error branch of `axios.interceptors.response.use` (App.jsx lines
17-24): if `error.response` exists and its status is 401 or 403, remove the
token and the isLoggedIn flag from storage and reload the page.  Returns the
new storage and whether `window.location.reload()` was called. -/
def responseErrorInterceptor (st : Storage) (e : ErrorInfo) : Storage × Bool :=
  if e.hasResponse && (e.status == 401 || e.status == 403) then
    ({ token := none, isLoggedIn := none }, true)
  else
    (st, false)

/-- The initial value of the `isLoggedIn` React state:
`!!localStorage.getItem('token')` (App.jsx line 28). -/
def initialIsLoggedIn (st : Storage) : Bool :=
  st.token.isSome

/-- The React state variables of the component. -/
structure AppState where
  isLoggedIn : Bool
  activeTab : String
  items : List Item
  stats : Stats
  search : String
  loading : Bool
  page : Nat
  hasMore : Bool
deriving DecidableEq, Repr

/-- The synchronous part of `fetchItems(pageNum, reset)` up to the `await`
(App.jsx lines 114-122): the single-flight guard `if (loading) return`, then
`setLoading(true)` and the GET /items request with `limit = 500`,
`offset = pageNum * limit`, the current tab and the current search text.
The `reset` argument is only consumed by the resolve continuation. -/
def fetchItemsStart (s : AppState) (pageNum : Nat) (_reset : Bool) :
    AppState × List Effect :=
  if s.loading then (s, [])
  else ({ s with loading := true },
        [Effect.getItems s.activeTab 500 (pageNum * 500) s.search])

/-- The resolve continuation of `fetchItems` (App.jsx lines 124-131): if
fewer than `limit = 500` rows came back, `setHasMore(false)`; then replace
(on reset) or append the rows; finally `setLoading(false)`. -/
def fetchItemsResolve (s : AppState) (reset : Bool) (rows : List Item) :
    AppState :=
  let s1 := if rows.length < 500 then { s with hasMore := false } else s
  let s2 := { s1 with items := if reset then rows else s1.items ++ rows }
  { s2 with loading := false }

/-- The catch/finally path of `fetchItems` (App.jsx lines 127-131): the error
is only logged; `finally` runs `setLoading(false)`. -/
def fetchItemsReject (s : AppState) : AppState :=
  { s with loading := false }

/-- `fetchStats` up to its `await` (App.jsx lines 134-139): one GET /stats
request keyed by the active tab; no state change before the response. -/
def fetchStatsStart (s : AppState) : AppState × List Effect :=
  (s, [Effect.getStats s.activeTab])

/-- The resolve continuation of `fetchStats`: `setStats(res.data)`. -/
def fetchStatsResolve (s : AppState) (st : Stats) : AppState :=
  { s with stats := st }

/-- The editable fields of an item, i.e. the `field` strings App.jsx passes
to `updateItem` from the table inputs (lines 333-340). -/
inductive ItemField where
  | fio
  | sana
  | model
  | imei
  | gb
  | purchase_price
  | sold_date
  | sale_price
deriving DecidableEq, Repr

/-- The string name of a field, as it appears in the PUT body. -/
def ItemField.name : ItemField → String
  | ItemField.fio => "fio"
  | ItemField.sana => "sana"
  | ItemField.model => "model"
  | ItemField.imei => "imei"
  | ItemField.gb => "gb"
  | ItemField.purchase_price => "purchase_price"
  | ItemField.sold_date => "sold_date"
  | ItemField.sale_price => "sale_price"

/-- The JS spread-with-computed-key patch `{ ...item, [field]: value }`. -/
def setField (it : Item) (f : ItemField) (v : String) : Item :=
  match f with
  | ItemField.fio => { it with fio := v }
  | ItemField.sana => { it with sana := v }
  | ItemField.model => { it with model := v }
  | ItemField.imei => { it with imei := v }
  | ItemField.gb => { it with gb := v }
  | ItemField.purchase_price => { it with purchase_price := v }
  | ItemField.sold_date => { it with sold_date := v }
  | ItemField.sale_price => { it with sale_price := v }

/-- The field list `['purchase_price', 'sale_price', 'sold_date']` of
App.jsx line 186 that gates the stats refetch in `updateItem`. -/
def statsRefetchFields : List String :=
  ["purchase_price", "sale_price", "sold_date"]

/-- `updateItem(id, field, value)` (App.jsx lines 180-190): optimistically
patch every row whose id matches, in place, before the PUT settles; send one
PUT /items/:id with the single field; when the PUT succeeds (`putOk`) and
the field is in `statsRefetchFields`, refetch stats; a failed PUT is only
logged. -/
def updateItemStep (s : AppState) (id : Nat) (f : ItemField) (v : String)
    (putOk : Bool) : AppState × List Effect :=
  let newItems := s.items.map (fun it => if it.id == id then setField it f v else it)
  let s1 := { s with items := newItems }
  (s1, [Effect.putItem id f.name v] ++
       (if putOk && statsRefetchFields.contains f.name then
          [Effect.getStats s1.activeTab]
        else []))

/-- A model of the JavaScript builtin `parseInt` on the prompt input of
`addItems` (radix-10 path): skip leading spaces, read an optional sign, then
the maximal run of leading decimal digits; none when no digit is found. -/
def parseIntJS (str : String) : Option Int :=
  let cs := str.toList.dropWhile (fun c => c == ' ')
  let signAndRest : Int × List Char :=
    match cs with
    | '-' :: rest => (-1, rest)
    | '+' :: rest => (1, rest)
    | _ => (1, cs)
  let ds := signAndRest.2.takeWhile (fun c => c.isDigit)
  if ds.isEmpty then none
  else some (signAndRest.1 *
    (ds.foldl (fun a c => a * 10 + (c.toNat - Char.toNat '0')) 0 : Nat))

/-- The synchronous part of `addItems()` (App.jsx lines 142-166): prompt for
a count (`input = none` models a cancelled prompt); `parseInt` it; on NaN or
a non-positive count, alert and stop; on a count above 100, show a confirm
dialog and stop when the user declines (`confirmAnswer = false`); otherwise
`setLoading(true)` and fire `count` concurrent POST /items requests. -/
def addItemsStart (s : AppState) (input : Option String)
    (confirmAnswer : Bool) : AppState × List Effect :=
  match input with
  | none => (s, [])
  | some str =>
    match parseIntJS str with
    | none => (s, [Effect.alert AlertKind.invalidCount])
    | some count =>
      if count ≤ 0 then (s, [Effect.alert AlertKind.invalidCount])
      else
        let posts : List Effect :=
          List.replicate count.toNat (Effect.postItem s.activeTab)
        if count > 100 then
          if confirmAnswer then
            ({ s with loading := true }, Effect.confirmBig count :: posts)
          else (s, [Effect.confirmBig count])
        else ({ s with loading := true }, posts)

/-- The settling of `addItems`'s `Promise.all` (App.jsx lines 166-177):
when every POST succeeded (`result = some newRows`), append all returned
rows to the list and refetch stats; when any POST failed (`result = none`,
`Promise.all` rejects on the first error), show the generic failure alert
and keep the list untouched; `finally` clears `loading` in both cases. -/
def addItemsSettle (s : AppState) (result : Option (List Item)) :
    AppState × List Effect :=
  match result with
  | some newRows =>
    ({ s with items := s.items ++ newRows, loading := false },
     [Effect.getStats s.activeTab])
  | none =>
    ({ s with loading := false }, [Effect.alert AlertKind.genericError])

/-- The success continuation of `deleteItem(id)` (App.jsx lines 192-199),
after the user confirmed and DELETE /items/:id resolved: drop every row
whose id matches from the local list, then refetch stats. -/
def deleteItemResolve (s : AppState) (id : Nat) : AppState × List Effect :=
  ({ s with items := s.items.filter (fun i => i.id != id) },
   [Effect.getStats s.activeTab])

/-- The success continuation of `returnItem(id)` (App.jsx lines 201-208):
replace the matching row with the server's returned representation, then
refetch stats. -/
def returnItemResolve (s : AppState) (id : Nat) (row : Item) :
    AppState × List Effect :=
  ({ s with items := s.items.map (fun i => if i.id == id then row else i) },
   [Effect.getStats s.activeTab])

/-- The tab-change effect (App.jsx lines 45-54) composed with the
`setActiveTab(tab)` click handler (line 261): set the new tab; when logged
in, clear the items, reset the page to 0 and `hasMore` to true, then run
`fetchItems(0, true)` (subject to its loading guard) and `fetchStats()`. -/
def tabChangeStep (s : AppState) (tab : String) : AppState × List Effect :=
  let s0 := { s with activeTab := tab }
  if s0.isLoggedIn then
    let s1 := { s0 with items := [], page := 0, hasMore := true }
    let r1 := fetchItemsStart s1 0 true
    let r2 := fetchStatsStart r1.1
    (r2.1, r1.2 ++ r2.2)
  else (s0, [])

/-- The body of the search-debounce timeout (App.jsx lines 59-64), run when
the 500 ms timer fires: clear the items, reset page and `hasMore`, then run
`fetchItems(0, true)` (subject to its loading guard).  `fetchStats` is not
called.  The surrounding effect returns early when not logged in. -/
def searchFireStep (s : AppState) : AppState × List Effect :=
  if s.isLoggedIn then
    let s1 := { s with items := [], page := 0, hasMore := true }
    fetchItemsStart s1 0 true
  else (s, [])

/-- The IntersectionObserver callback (App.jsx lines 74-77) composed with
the page-change effect (lines 88-90): when the sentinel intersects, more
pages exist and no fetch is in flight, increment the page; the page effect
then runs `fetchItems(page)` since the new page is positive. -/
def observeStep (s : AppState) (isIntersecting : Bool) :
    AppState × List Effect :=
  if isIntersecting && s.hasMore && !s.loading then
    let s1 := { s with page := s.page + 1 }
    fetchItemsStart s1 s1.page false
  else (s, [])

/-- The debounce timer of the search effect (App.jsx lines 57-67): at most
one pending timeout; `pending` is the absolute time at which it will fire. -/
structure DebounceState where
  pending : Option Nat
deriving DecidableEq, Repr

/-- A keystroke at time `now`: the effect cleanup clears the previous
timeout and a fresh 500 ms timeout is scheduled. -/
def onKeystroke (now : Nat) (_d : DebounceState) : DebounceState :=
  { pending := some (now + 500) }

/-- Whether the pending timeout fires at time `now` (timers never fire
before their scheduled time). -/
def fireReady (d : DebounceState) (now : Nat) : Bool :=
  match d.pending with
  | some t => decide (t ≤ now)
  | none => false

/-- The events the logged-in component reacts to, pairing each user input
with the settling of the network call it triggers. -/
inductive Event where
  | tabClick (tab : String)
  | searchInput (txt : String)
  | searchFire
  | observe (isIntersecting : Bool)
  | listResolve (reset : Bool) (rows : List Item)
  | listReject
  | statsResolve (st : Stats)
  | addStart (input : Option String) (confirmAnswer : Bool)
  | addSettle (result : Option (List Item))
  | update (id : Nat) (f : ItemField) (v : String) (putOk : Bool)
  | deleteResolve (id : Nat)
  | returnResolve (id : Nat) (row : Item)

/-- Events that reset the query (tab change, search-debounce firing): the
only handlers that write `hasMore := true`. -/
def Event.isQueryReset : Event → Bool
  | Event.tabClick _ => true
  | Event.searchFire => true
  | _ => false

/-- One step of the component: dispatch an event to its handler. -/
def step (s : AppState) (e : Event) : AppState × List Effect :=
  match e with
  | Event.tabClick tab => tabChangeStep s tab
  | Event.searchInput txt => ({ s with search := txt }, [])
  | Event.searchFire => searchFireStep s
  | Event.observe i => observeStep s i
  | Event.listResolve reset rows => (fetchItemsResolve s reset rows, [])
  | Event.listReject => (fetchItemsReject s, [])
  | Event.statsResolve st => (fetchStatsResolve s st, [])
  | Event.addStart input ca => addItemsStart s input ca
  | Event.addSettle result => addItemsSettle s result
  | Event.update id f v ok => updateItemStep s id f v ok
  | Event.deleteResolve id => deleteItemResolve s id
  | Event.returnResolve id row => returnItemResolve s id row

/-- A zero stats snapshot (what the summary renders before data arrives). -/
def st0 : Stats := ⟨0, 0, 0, 0, 0, 0⟩

/-- A concrete row used in concrete evaluations. -/
def itemA : Item := ⟨1, "Ali", "01.01.2024", "iPhone", "111", "128", "100", "", ""⟩

/-- A second concrete row used in concrete evaluations. -/
def itemB : Item := ⟨2, "Vali", "02.01.2024", "Samsung", "222", "256", "200", "", ""⟩

/-- A concrete logged-in state with no fetch in flight. -/
def sIdle : AppState := ⟨true, "yangi", [itemA, itemB], st0, "", false, 0, true⟩

/-- A concrete logged-in state with a list fetch in flight (loading). -/
def sBusy : AppState := ⟨true, "yangi", [itemA, itemB], st0, "", true, 2, true⟩

/-- A concrete logged-in state after the end of data was reached. -/
def sNoMore : AppState := ⟨true, "yangi", [itemA, itemB], st0, "", false, 3, false⟩

/-- C1: for every HTTP response with status 401 or 403 (an axios error
carrying a response), the response interceptor clears both stored keys
(token and login flag) and forces a reload; after the reload the initial
logged-in state computed from storage is false, i.e. the login view. -/
theorem spec_C1 (st : Storage) (e : ErrorInfo) (hr : e.hasResponse = true)
    (hs : e.status = 401 ∨ e.status = 403) :
    responseErrorInterceptor st e = ({ token := none, isLoggedIn := none }, true) ∧
    initialIsLoggedIn (responseErrorInterceptor st e).1 = false := by
  rcases hs with h | h <;>
    simp [responseErrorInterceptor, initialIsLoggedIn, hr, h]

/-- C1 witness: a concrete 401 error against a populated storage. -/
theorem spec_C1_witness :
    responseErrorInterceptor ⟨some "tok", some "true"⟩ ⟨true, 401⟩ =
      ({ token := none, isLoggedIn := none }, true) ∧
    initialIsLoggedIn
      (responseErrorInterceptor ⟨some "tok", some "true"⟩ ⟨true, 401⟩).1 = false :=
  spec_C1 ⟨some "tok", some "true"⟩ ⟨true, 401⟩ rfl (Or.inl rfl)

/-- C2: a call to `fetchItems` made while `loading` is true is a no-op: the
state (hence `items`, `page`, `hasMore`) is unchanged and no request is
issued. -/
theorem spec_C2 (s : AppState) (pageNum : Nat) (reset : Bool)
    (h : s.loading = true) :
    fetchItemsStart s pageNum reset = (s, []) := by
  simp [fetchItemsStart, h]

/-- C2 witness: a concrete call during an in-flight fetch. -/
theorem spec_C2_witness : fetchItemsStart sBusy 1 false = (sBusy, []) :=
  spec_C2 sBusy 1 false rfl

/-- C6: when any of the concurrent create requests of `addItems` fails
(`Promise.all` rejects), the visible item list is unchanged — no newly
created row is appended, even those whose own request succeeded — the
generic failure alert is the only effect, and no stats refetch is issued. -/
theorem spec_C6 (s : AppState) :
    (addItemsSettle s none).1.items = s.items ∧
    (addItemsSettle s none).1 = { s with loading := false } ∧
    (addItemsSettle s none).2 = [Effect.alert AlertKind.genericError] ∧
    (addItemsSettle s none).2.any isStatsFetch = false := by
  simp [addItemsSettle, isStatsFetch]

/-- C10: both continuations of a `fetchItems` run that passed the guard —
the success path and the catch path — end with `loading = false` (the
`finally` block), so a later `fetchItems` call from either state passes the
guard and issues its request. -/
theorem spec_C10 (s : AppState) (reset : Bool) (rows : List Item)
    (p2 : Nat) (r2 : Bool) :
    (fetchItemsResolve s reset rows).loading = false ∧
    (fetchItemsReject s).loading = false ∧
    fetchItemsStart (fetchItemsResolve s reset rows) p2 r2 =
      ({ fetchItemsResolve s reset rows with loading := true },
       [Effect.getItems (fetchItemsResolve s reset rows).activeTab 500
          (p2 * 500) (fetchItemsResolve s reset rows).search]) ∧
    fetchItemsStart (fetchItemsReject s) p2 r2 =
      ({ fetchItemsReject s with loading := true },
       [Effect.getItems s.activeTab 500 (p2 * 500) s.search]) := by
  refine ⟨?_, rfl, ?_, rfl⟩ <;>
    simp [fetchItemsResolve, fetchItemsStart]

/-- C3: `updateItem(id, field, value)` patches every row whose id matches in
the same synchronous step that issues the PUT (i.e. before the request
settles), keeps non-matching rows, and — on the normal path where the PUT
succeeds — issues a stats refetch exactly when the field is one of
purchase_price, sale_price, sold_date; with field `fio` no stats refetch is
ever issued, whether the PUT succeeds or fails. -/
theorem spec_C3 (s : AppState) (id : Nat) (f : ItemField) (v : String)
    (putOk : Bool) :
    (∀ it ∈ s.items, it.id = id →
      setField it f v ∈ (updateItemStep s id f v putOk).1.items) ∧
    (∀ it ∈ s.items, it.id ≠ id →
      it ∈ (updateItemStep s id f v putOk).1.items) ∧
    Effect.putItem id f.name v ∈ (updateItemStep s id f v putOk).2 ∧
    (putOk = true →
      (((updateItemStep s id f v putOk).2.any isStatsFetch = true) ↔
        f.name ∈ statsRefetchFields)) ∧
    (updateItemStep s id ItemField.fio v putOk).2.any isStatsFetch = false := by
  refine ⟨?_, ?_, ?_, ?_, ?_⟩
  · intro it hit hid
    exact List.mem_map.mpr ⟨it, hit, by simp [hid]⟩
  · intro it hit hid
    exact List.mem_map.mpr ⟨it, hit, by simp [hid]⟩
  · simp [updateItemStep]
  · intro hok
    cases f <;>
      simp [updateItemStep, isStatsFetch, statsRefetchFields, ItemField.name, hok]
  · cases putOk <;>
      simp [updateItemStep, isStatsFetch, statsRefetchFields, ItemField.name]

/-- C3 witness: a concrete price edit on row 1 of a two-row list. -/
theorem spec_C3_witness :
    setField itemA ItemField.purchase_price "500000" ∈
      (updateItemStep sIdle 1 ItemField.purchase_price "500000" true).1.items ∧
    itemB ∈ (updateItemStep sIdle 1 ItemField.purchase_price "500000" true).1.items ∧
    (((updateItemStep sIdle 1 ItemField.purchase_price "500000" true).2.any
        isStatsFetch = true) ↔
      (ItemField.purchase_price).name ∈ statsRefetchFields) :=
  ⟨(spec_C3 sIdle 1 ItemField.purchase_price "500000" true).1 itemA
      (by simp [sIdle]) rfl,
   (spec_C3 sIdle 1 ItemField.purchase_price "500000" true).2.1 itemB
      (by simp [sIdle]) (by decide),
   (spec_C3 sIdle 1 ItemField.purchase_price "500000" true).2.2.2.1 rfl⟩

/-- C9: after a successful `deleteItem(id)`, the local list is the previous
list with exactly the rows of that id removed: it is a sublist of the old
list (so surviving rows are unchanged and keep their relative order), a row
belongs to it iff it belonged before and has a different id, rows of other
ids keep their multiplicity, and no row of the deleted id remains. -/
theorem spec_C9 (s : AppState) (id : Nat) :
    (deleteItemResolve s id).1.items.Sublist s.items ∧
    (∀ x : Item, x ∈ (deleteItemResolve s id).1.items ↔
      (x ∈ s.items ∧ x.id ≠ id)) ∧
    (∀ x : Item, x.id ≠ id →
      (deleteItemResolve s id).1.items.count x = s.items.count x) ∧
    (∀ x : Item, x.id = id → (deleteItemResolve s id).1.items.count x = 0) := by
  refine ⟨List.filter_sublist _, ?_, ?_, ?_⟩
  · intro x
    simp [deleteItemResolve, List.mem_filter]
  · intro x hx
    simp only [deleteItemResolve]
    rw [List.count_filter]
    simp [hx]
  · intro x hx
    rw [List.count_eq_zero]
    simp [deleteItemResolve, List.mem_filter, hx]

/-- C9 witness: deleting id 1 from the two-row list. -/
theorem spec_C9_witness :
    (deleteItemResolve sIdle 1).1.items.Sublist sIdle.items ∧
    (itemB ∈ (deleteItemResolve sIdle 1).1.items ↔
      (itemB ∈ sIdle.items ∧ itemB.id ≠ 1)) ∧
    (deleteItemResolve sIdle 1).1.items.count itemB = sIdle.items.count itemB ∧
    (deleteItemResolve sIdle 1).1.items.count itemA = 0 :=
  ⟨(spec_C9 sIdle 1).1, (spec_C9 sIdle 1).2.1 itemB,
   (spec_C9 sIdle 1).2.2.1 itemB (by decide),
   (spec_C9 sIdle 1).2.2.2 itemA rfl⟩

/-- C8: when the prompt input of `addItems` parses as NaN or as a number
not greater than zero, the validation alert is the only effect — in
particular no POST is issued and the state is untouched; when the parsed
count exceeds 100, the confirmation dialog is the first effect, before any
POST. -/
theorem spec_C8 (s : AppState) (str : String) (confirmAnswer : Bool) :
    (parseIntJS str = none →
      addItemsStart s (some str) confirmAnswer =
        (s, [Effect.alert AlertKind.invalidCount])) ∧
    (∀ n : Int, parseIntJS str = some n → n ≤ 0 →
      addItemsStart s (some str) confirmAnswer =
        (s, [Effect.alert AlertKind.invalidCount])) ∧
    (∀ n : Int, parseIntJS str = some n → 100 < n →
      (addItemsStart s (some str) confirmAnswer).2.head? =
        some (Effect.confirmBig n)) := by
  refine ⟨?_, ?_, ?_⟩
  · intro h
    simp [addItemsStart, h]
  · intro n h hn
    simp [addItemsStart, h, hn]
  · intro n h hn
    have h0 : ¬ n ≤ 0 := by omega
    cases confirmAnswer <;> simp [addItemsStart, h, hn, h0]

/-- C8 witness: inputs "abc", "0", "-3" (alert, no request) and "150"
(confirmation first). -/
theorem spec_C8_witness :
    addItemsStart sIdle (some "abc") true =
      (sIdle, [Effect.alert AlertKind.invalidCount]) ∧
    addItemsStart sIdle (some "0") true =
      (sIdle, [Effect.alert AlertKind.invalidCount]) ∧
    addItemsStart sIdle (some "-3") false =
      (sIdle, [Effect.alert AlertKind.invalidCount]) ∧
    (addItemsStart sIdle (some "150") false).2.head? =
      some (Effect.confirmBig 150) :=
  ⟨(spec_C8 sIdle "abc" true).1 rfl,
   (spec_C8 sIdle "0" true).2.1 0 rfl (by decide),
   (spec_C8 sIdle "-3" false).2.1 (-3) (by decide) (by decide),
   (spec_C8 sIdle "150" false).2.2 150 (by decide) (by decide)⟩

/-- Helper: the burst of POST /items requests fired by `addItems` contains
no GET /items list fetch. -/
theorem any_replicate_postItem (n : Nat) (tab : String) :
    (List.replicate n (Effect.postItem tab)).any isItemsFetch = false := by
  induction n with
  | zero => rfl
  | succ k ih => simp [List.replicate, isItemsFetch]

/-- C4: a list fetch returning fewer than 500 rows sets `hasMore` to false;
and from any state with `hasMore = false`, every event other than a tab
change or a search-debounce fire (the only query resets) keeps
`hasMore = false`, leaves `page` unchanged, and issues no list fetch. -/
theorem spec_C4 :
    (∀ (s : AppState) (reset : Bool) (rows : List Item),
      rows.length < 500 → (fetchItemsResolve s reset rows).hasMore = false) ∧
    (∀ (s : AppState) (e : Event), s.hasMore = false →
      e.isQueryReset = false →
      (step s e).1.hasMore = false ∧ (step s e).1.page = s.page ∧
      (step s e).2.any isItemsFetch = false) := by
  constructor
  · intro s reset rows h
    simp [fetchItemsResolve, h]
  · intro s e h hq
    cases e with
    | tabClick tab => simp [Event.isQueryReset] at hq
    | searchInput txt => simp [step, h]
    | searchFire => simp [Event.isQueryReset] at hq
    | observe i => simp [step, observeStep, h]
    | listResolve reset rows =>
      refine ⟨?_, ?_, rfl⟩ <;>
        simp [step, fetchItemsResolve, h] <;> split <;> simp [h]
    | listReject => simp [step, fetchItemsReject, h]
    | statsResolve st => simp [step, fetchStatsResolve, h]
    | addStart input ca =>
      cases input with
      | none => simp [step, addItemsStart, h]
      | some str =>
        simp only [step]
        cases hp : parseIntJS str with
        | none => simp [addItemsStart, hp, isItemsFetch, h]
        | some n =>
          by_cases h0 : n ≤ 0
          · simp [addItemsStart, hp, h0, isItemsFetch, h]
          · by_cases h100 : 100 < n
            · cases ca <;>
                simp [addItemsStart, hp, h0, h100, isItemsFetch, h,
                  any_replicate_postItem]
            · simp [addItemsStart, hp, h0, h100, isItemsFetch, h,
                any_replicate_postItem]
    | addSettle result =>
      cases result <;> simp [step, addItemsSettle, isItemsFetch, h]
    | update id f v ok =>
      refine ⟨h, rfl, ?_⟩
      cases ok <;> by_cases hc : statsRefetchFields.contains (ItemField.name f) <;>
        simp [step, updateItemStep, isItemsFetch, hc]
    | deleteResolve id => simp [step, deleteItemResolve, isItemsFetch, h]
    | returnResolve id row => simp [step, returnItemResolve, isItemsFetch, h]

/-- C4 witness: a short page-0 response ends pagination, and in the
ended state a sentinel intersection neither increments the page nor issues
a fetch. -/
theorem spec_C4_witness :
    (fetchItemsResolve sIdle true [itemA]).hasMore = false ∧
    ((step sNoMore (Event.observe true)).1.hasMore = false ∧
     (step sNoMore (Event.observe true)).1.page = sNoMore.page ∧
     (step sNoMore (Event.observe true)).2.any isItemsFetch = false) :=
  ⟨spec_C4.1 sIdle true [itemA] (by decide),
   spec_C4.2 sNoMore (Event.observe true) rfl rfl⟩

/-- C5 counterexample: in a concrete logged-in state with a list fetch in
flight (`loading = true`), switching the tab issues only the stats fetch —
the page-0 list fetch is dropped by the `loading` guard of `fetchItems`, so
the claim that both fetches are always re-issued is false. -/
theorem spec_C5_cex :
    sBusy.isLoggedIn = true ∧ sBusy.loading = true ∧
    (tabChangeStep sBusy "koreyskiy").2 = [Effect.getStats "koreyskiy"] ∧
    (tabChangeStep sBusy "koreyskiy").2.any isItemsFetch = false :=
  ⟨rfl, rfl, rfl, rfl⟩

/-- C5 (amended): every tab change while logged in resets `page` to 0,
clears the item list, resets `hasMore` to true, and always issues a stats
fetch for the new tab; the page-0 list fetch is issued exactly when no list
fetch is in flight — when `loading` is true the guard drops it and only the
stats fetch goes out. -/
theorem spec_C5_amended (s : AppState) (tab : String)
    (h : s.isLoggedIn = true) :
    (tabChangeStep s tab).1.page = 0 ∧
    (tabChangeStep s tab).1.items = [] ∧
    (tabChangeStep s tab).1.hasMore = true ∧
    Effect.getStats tab ∈ (tabChangeStep s tab).2 ∧
    (s.loading = false →
      Effect.getItems tab 500 0 s.search ∈ (tabChangeStep s tab).2) ∧
    (s.loading = true →
      (tabChangeStep s tab).2 = [Effect.getStats tab]) := by
  cases hl : s.loading <;>
    simp [tabChangeStep, fetchItemsStart, fetchStatsStart, h, hl]

/-- C5 amended witness: a concrete idle tab switch issues both fetches. -/
theorem spec_C5_amended_witness :
    (tabChangeStep sIdle "koreyskiy").1.page = 0 ∧
    Effect.getStats "koreyskiy" ∈ (tabChangeStep sIdle "koreyskiy").2 ∧
    Effect.getItems "koreyskiy" 500 0 "" ∈ (tabChangeStep sIdle "koreyskiy").2 :=
  ⟨(spec_C5_amended sIdle "koreyskiy" rfl).1,
   (spec_C5_amended sIdle "koreyskiy" rfl).2.2.2.1,
   (spec_C5_amended sIdle "koreyskiy" rfl).2.2.2.2.1 rfl⟩

/-- C7 counterexample: in a concrete logged-in state with a list fetch in
flight (`loading = true`), the debounce firing resets the view state but
issues no effect at all — in particular no page-0 refetch — so the claim
that the fire always refetches page 0 is false. -/
theorem spec_C7_cex :
    sBusy.isLoggedIn = true ∧ sBusy.loading = true ∧
    (searchFireStep sBusy).2 = [] :=
  ⟨rfl, rfl, rfl⟩

/-- C7 (amended): the debounce timer set by a keystroke at time `t` cannot
fire before `t + 500`, and a later keystroke replaces it, so no
search-triggered fetch is issued until 500 ms after the last keystroke;
when the timer fires while logged in, it clears the list, resets `page` to
0 and `hasMore` to true, never refetches stats, and issues the page-0 list
fetch exactly when no list fetch is in flight (`loading = false`) — an
in-flight fetch drops it. -/
theorem spec_C7_amended :
    (∀ (d : DebounceState) (t now : Nat),
      fireReady (onKeystroke t d) now = true → t + 500 ≤ now) ∧
    (∀ s : AppState, s.isLoggedIn = true →
      (searchFireStep s).1.items = [] ∧
      (searchFireStep s).1.page = 0 ∧
      (searchFireStep s).1.hasMore = true ∧
      (searchFireStep s).2.any isStatsFetch = false ∧
      (s.loading = false →
        (searchFireStep s).2 =
          [Effect.getItems s.activeTab 500 0 s.search]) ∧
      (s.loading = true → (searchFireStep s).2 = [])) := by
  constructor
  · intro d t now hf
    simpa [fireReady, onKeystroke] using hf
  · intro s h
    cases hl : s.loading <;>
      simp [searchFireStep, fetchItemsStart, isStatsFetch, h, hl]

/-- C7 amended witness: a keystroke at time 3 yields a timer that may fire
at 503 and indeed 3 + 500 ≤ 503; a concrete idle fire refetches page 0. -/
theorem spec_C7_amended_witness :
    3 + 500 ≤ 503 ∧
    (searchFireStep sIdle).1.page = 0 ∧
    (searchFireStep sIdle).2 = [Effect.getItems "yangi" 500 0 ""] :=
  ⟨spec_C7_amended.1 ⟨none⟩ 3 503 (by decide),
   (spec_C7_amended.2 sIdle rfl).2.1,
   (spec_C7_amended.2 sIdle rfl).2.2.2.2.1 rfl⟩
